import Mathlib

/-!
# Skill-Gap Masr — verification development

Shallow embedding of the ingestion and retrieval pipeline of the
Skill-Gap Masr repository (`config.py`, `ingest.py`, `rag_engine.py`),
together with theorems settling the specification's claims about it.

The repository's own code is pure orchestration: loading and tagging
documents, configuring a recursive character splitter, writing chunks to a
vector store, retrieving with a metadata filter, and mapping failures of
the external chat-completion call to user-facing strings.  The external
collaborators (the Chroma vector store's search, the langchain recursive
splitter algorithm, the chat-completion service) are modelled from the
specification's contracts where their behaviour is needed; every constant,
separator list, filter value, message string and control path below is
transcribed from the source files.
-/

namespace SkillGapMasr

/-! ## Configuration constants (from `config.py`) -/

/-- `config.CHUNK_SIZE` — maximum chunk length in characters. -/
def CHUNK_SIZE : Nat := 500

/-- `config.CHUNK_OVERLAP` — overlap between adjacent chunks. -/
def CHUNK_OVERLAP : Nat := 50

/-- `config.RETRIEVAL_K` — default number of chunks retrieved. -/
def RETRIEVAL_K : Nat := 5

/-- `config.DOC_TYPE_JOB` — metadata label for job-description documents. -/
def DOC_TYPE_JOB : String := "job_description"

/-- `config.DOC_TYPE_CV` — metadata label for student-CV documents. -/
def DOC_TYPE_CV : String := "student_cv"

/-- `config.CHROMA_PERSIST_DIR` — the persist directory (relative to the
base directory) of the Chroma vector store. -/
def CHROMA_PERSIST_DIR : String := "chroma_db"

/-! ## Data model (langchain `Document` as used by this repository) -/

/-- The metadata the ingestion pipeline attaches to each document:
`doc_type` and `source_name` (`ingest.load_documents` lines 67-69). -/
structure DocMetadata where
  doc_type : String
  source_name : String
deriving DecidableEq, Repr

/-- A langchain document: page content plus the metadata this pipeline
uses. -/
structure Document where
  page_content : String
  metadata : DocMetadata
deriving DecidableEq, Repr

/-! ## Document loader (`ingest.load_documents`) -/

/-- An input directory as the loader sees it: whether it exists on disk and
the (basename, content) pairs of the supported files inside it. -/
structure Directory where
  dir_exists : Bool
  files : List (String × String)
deriving DecidableEq, Repr

/-- `ingest.load_documents`: raises `FileNotFoundError` when the directory
does not exist (line 50-51); otherwise returns each file's content tagged
with the given `doc_type` and with `source_name` set to the file's
basename (lines 67-69).  The error case is an `Except.error` carrying the
message string. -/
def load_documents (directory : Directory) (doc_type : String) :
    Except String (List Document) :=
  if directory.dir_exists then
    .ok (directory.files.map fun f =>
      { page_content := f.2
        metadata := { doc_type := doc_type, source_name := f.1 } })
  else
    .error "Directory not found"

/-! ## Chunker (`ingest.chunk_documents`)

The splitter algorithm itself lives in the external
`langchain_text_splitters` library; only its configuration — the separator
list, the chunk size and the overlap — is code of this repository
(`ingest.chunk_documents` lines 122-127).  The recursive strategy is
therefore modelled from the spec's contract: prefer the earliest separator
in the priority list, split only chunks longer than the configured maximum,
and fall through to later separators (ending with the arbitrary
character-boundary separator `""`) until every chunk is within bounds.
Overlap merging is not modelled; no claim depends on it. -/

/-- The separator priority list passed to
`RecursiveCharacterTextSplitter` in `ingest.chunk_documents` line 126,
transcribed verbatim from the source. -/
def separators : List String := ["\n\n", "\n", ". ", ", ", " ", ""]

/-- Splitting on one separator, keeping the separator attached to the
following piece (the splitter is configured with its default
keep-separator behaviour).  The empty separator splits into single
characters. -/
def split_keep_sep (sep : String) (s : String) : List String :=
  if sep.isEmpty then
    s.data.map fun c => String.singleton c
  else
    match s.splitOn sep with
    | [] => []
    | first :: rest => first :: rest.map fun piece => sep ++ piece

/-- Modelled from the spec: the recursive separator strategy of the
external splitter — split an over-long text on the first separator,
keep pieces already within `CHUNK_SIZE`, and recurse on longer pieces
with the remaining separators. -/
def split_recursive : List String → String → List String
  | [], s => [s]
  | sep :: rest, s =>
      (split_keep_sep sep s).flatMap fun piece =>
        if piece.length ≤ CHUNK_SIZE then [piece] else split_recursive rest piece

/-- Chunk one text: a text already within `CHUNK_SIZE` is a single chunk;
otherwise the recursive separator strategy is applied with the source's
separator list. -/
def chunk_text (s : String) : List String :=
  if s.length ≤ CHUNK_SIZE then [s] else split_recursive separators s

/-- `ingest.chunk_documents`: split every document's content into chunks,
copying the source document's metadata onto each chunk. -/
def chunk_documents (documents : List Document) : List Document :=
  documents.flatMap fun doc =>
    (chunk_text doc.page_content).map fun piece =>
      { page_content := piece, metadata := doc.metadata }

/-! ## Vector store (`ingest.create_vector_store`, Chroma search)

`create_vector_store` hands the chunk list to the external
`Chroma.from_documents`; the persisted collection is modelled as the list
of chunk records.  The search side (`Chroma.similarity_search` with a
metadata filter) is modelled from the spec's Vector Store contract:
restrict to records matching the metadata filter, order by descending
similarity, return the first `k`.  Similarity scoring is opaque here, so
the score is a parameter. -/

/-- `ingest.create_vector_store`: the records persisted as the
`skill_gap_masr` collection are exactly the chunks handed to the store
(lines 184-189).  Whether a pre-existing collection is replaced or
appended to is decided inside the external library and is not modelled. -/
def create_vector_store (chunks : List Document) : List Document := chunks

/-- Descending-similarity insertion into a sorted list. -/
def insert_desc (score : Document → Nat) (d : Document) :
    List Document → List Document
  | [] => [d]
  | e :: es =>
      if score e ≤ score d then d :: e :: es
      else e :: insert_desc score d es

/-- Sort records by descending similarity score. -/
def sort_desc (score : Document → Nat) : List Document → List Document
  | [] => []
  | d :: ds => insert_desc score d (sort_desc score ds)

/-- Modelled from the spec: the external vector store's
`similarity_search(query, k, filter)` — the `k` nearest records whose
metadata matches the filter, ordered by descending similarity.  The filter
argument mirrors the one dictionary shape this repository passes:
`{"doc_type": value}`. -/
def similarity_search (score : String → Document → Nat)
    (store : List Document) (query : String) (k : Nat)
    (doc_type_filter : String) : List Document :=
  ((store.filter fun d => d.metadata.doc_type == doc_type_filter).foldr
      (insert_desc (score query)) []).take k

/-! ## Gap analyzer (`rag_engine.SkillGapAnalyzer`) -/

/-- The two exception types `SkillGapAnalyzer.__init__` can raise:
`ValueError` for a missing/placeholder API key (lines 104-109) and
`FileNotFoundError` for a missing vector store (lines 119-123). -/
inductive InitError where
  | valueError (msg : String)
  | fileNotFoundError (msg : String)
deriving DecidableEq, Repr

/-- The `ValueError` message of `SkillGapAnalyzer.__init__` lines 105-109. -/
def groq_key_error_message : String :=
  "GROQ_API_KEY not set!\n" ++
  "1. Get a FREE API key from: https://console.groq.com/keys\n" ++
  "2. Add GROQ_API_KEY=your_key to your .env file"

/-- The `FileNotFoundError` message of `SkillGapAnalyzer.__init__` lines
120-123 (the persist-directory path interpolated into it). -/
def vector_store_error_message : String :=
  "Vector store not found at " ++ CHROMA_PERSIST_DIR ++
  "\nPlease run: python ingest.py"

/-- The key test of `SkillGapAnalyzer.__init__` line 104:
`not groq_api_key or groq_api_key == "your_api_key_here"` — true for an
unset key (`none`), an empty string (falsy in Python), or the placeholder. -/
def bad_key (groq_api_key : Option String) : Bool :=
  match groq_api_key with
  | none => true
  | some s => s.isEmpty || s == "your_api_key_here"

/-- `SkillGapAnalyzer.__init__`, abstracted over the resolved
`GROQ_API_KEY` value and whether the Chroma persist directory exists: the
key check (line 104) runs first and raises `ValueError`; only then is the
persist directory checked (line 119), raising `FileNotFoundError`. -/
def analyzer_init (groq_api_key : Option String)
    (chroma_dir_exists : Bool) : Except InitError Unit :=
  if bad_key groq_api_key then
    .error (.valueError groq_key_error_message)
  else if !chroma_dir_exists then
    .error (.fileNotFoundError vector_store_error_message)
  else
    .ok ()

/-- `SkillGapAnalyzer.get_relevant_jobs` (lines 164-183): delegate to the
store's similarity search with the fixed metadata filter
`{"doc_type": config.DOC_TYPE_JOB}`, defaulting `k` to
`config.RETRIEVAL_K` when not given. -/
def get_relevant_jobs (score : String → Document → Nat)
    (store : List Document) (role : String) (k : Option Nat) :
    List Document :=
  similarity_search score store role (k.getD RETRIEVAL_K) DOC_TYPE_JOB

/-- The input dictionary `analyze_gap` passes to the prompt chain
(lines 223-225): `{"role", "job_context", "cv_text"}`. -/
structure PromptInput where
  role : String
  job_context : String
  cv_text : String
deriving DecidableEq, Repr

/-- The fixed no-data message of `analyze_gap` lines 206-211. -/
def no_jobs_message : String :=
  "⚠️ **No relevant job descriptions found!**\n\n" ++
  "Please make sure you\x27ve run the ingestion pipeline:\n" ++
  "```bash\npython ingest.py\n```\n\n" ++
  "And that you have job description files in `data/market_jobs/`"

/-- The user-facing error string `analyze_gap` builds from a caught
exception (lines 229-232). -/
def api_error_message (e : String) : String :=
  "❌ **Error generating analysis:** " ++ e ++
  "\n\nThis might be a temporary API issue. Please try again."

/-- Python's `"\n\n---\n\n".join(...)` / `str.join` on a list of parts. -/
def join_sep (sep : String) : List String → String
  | [] => ""
  | [x] => x
  | x :: y :: xs => x ++ sep ++ join_sep sep (y :: xs)

/-- The `job_context` block of `analyze_gap` lines 214-219: each retrieved
chunk rendered as `**Source:** <source_name>\n\n<page_content>`, the
renderings joined with `\n\n---\n\n`. -/
def format_job_context (relevant_jobs : List Document) : String :=
  join_sep "\n\n---\n\n" (relevant_jobs.map fun doc =>
    "**Source:** " ++ doc.metadata.source_name ++ "\n\n" ++ doc.page_content)

/-- `SkillGapAnalyzer.analyze_gap` (lines 185-232).  `retrieve` stands for
`self.get_relevant_jobs` (which embeds the query and searches the store;
both can raise, modelled as `Except.error`) and `chain_invoke` for
`self.chain.invoke` (the external chat-completion call).  The retrieval
happens OUTSIDE the `try` block of the source (line 203 vs 222), so a
retrieval failure propagates as `Except.error`, while a chain failure is
caught and mapped to `api_error_message` (lines 228-232). -/
def analyze_gap (retrieve : String → Except String (List Document))
    (chain_invoke : PromptInput → Except String String)
    (cv_text role : String) : Except String String :=
  match retrieve role with
  | .error e => .error e
  | .ok relevant_jobs =>
    if relevant_jobs.isEmpty then
      .ok no_jobs_message
    else
      let job_context := format_job_context relevant_jobs
      match chain_invoke
          { role := role, job_context := job_context, cv_text := cv_text } with
      | .ok report => .ok report
      | .error e => .ok (api_error_message e)

/-! ## Ingestion pipeline (`ingest.run_ingestion`) -/

/-- `ingest.run_ingestion` (lines 195-263): load job descriptions, then
CVs, each `FileNotFoundError` caught and turned into a `None` return
(lines 216-234); abort with `None` when no documents at all were loaded
(lines 236-238); otherwise chunk everything and write the chunks to the
vector store.  `some store` is returned exactly when a store was written. -/
def run_ingestion (jobs_dir cvs_dir : Directory) : Option (List Document) :=
  match load_documents jobs_dir DOC_TYPE_JOB with
  | .error _ => none
  | .ok job_docs =>
    match load_documents cvs_dir DOC_TYPE_CV with
    | .error _ => none
    | .ok cv_docs =>
      let all_documents := job_docs ++ cv_docs
      if all_documents.isEmpty then none
      else some (create_vector_store (chunk_documents all_documents))

/-- The separator priority list the spec claims, written from the claim's
words: paragraph boundaries, newlines, sentence-ending punctuation,
whitespace, arbitrary character boundaries — and no other separators. -/
def spec_claimed_separators : List String := ["\n\n", "\n", ". ", " ", ""]

/-! ## Sample data (the spec's testable-property example) -/

/-- The single job chunk of the spec's testable property. -/
def sample_job_doc : Document :=
  { page_content := "JOB TITLE: Backend Developer\nRequires: Python, SQL"
    metadata := { doc_type := DOC_TYPE_JOB, source_name := "job1.txt" } }

/-- A CV chunk persisted in the same collection. -/
def sample_cv_doc : Document :=
  { page_content := "SKILLS: Python"
    metadata := { doc_type := DOC_TYPE_CV, source_name := "cv1.txt" } }

/-! ## Helper lemmas -/

theorem mem_insert_desc {score : Document → Nat} {a d : Document} :
    ∀ {l : List Document}, d ∈ insert_desc score a l → d = a ∨ d ∈ l := by
  intro l
  induction l with
  | nil =>
    intro h
    simp only [insert_desc, List.mem_singleton] at h
    exact Or.inl h
  | cons e es ih =>
    intro h
    simp only [insert_desc] at h
    split at h
    · simpa using h
    · rcases List.mem_cons.mp h with h1 | h2
      · exact Or.inr (by simp [h1])
      · rcases ih h2 with h3 | h4
        · exact Or.inl h3
        · exact Or.inr (List.mem_cons_of_mem _ h4)

theorem mem_foldr_insert_desc {score : Document → Nat} {d : Document} :
    ∀ {l : List Document}, d ∈ l.foldr (insert_desc score) [] → d ∈ l := by
  intro l
  induction l with
  | nil => intro h; exact absurd h (List.not_mem_nil d)
  | cons e es ih =>
    intro h
    rcases mem_insert_desc h with h1 | h2
    · simp [h1]
    · exact List.mem_cons_of_mem _ (ih h2)

/-- Every record the modelled similarity search returns matches the
metadata filter it was given. -/
theorem doc_type_of_mem_similarity_search {score : String → Document → Nat}
    {store : List Document} {query : String} {k : Nat}
    {doc_type_filter : String} {d : Document}
    (h : d ∈ similarity_search score store query k doc_type_filter) :
    d.metadata.doc_type = doc_type_filter := by
  have h1 := List.take_subset _ _ h
  have h2 := mem_foldr_insert_desc h1
  exact beq_iff_eq.mp (List.mem_filter.mp h2).2

theorem length_string_singleton (c : Char) : (String.singleton c).length = 1 := by
  simp [String.singleton, String.length]

theorem length_le_of_mem_split_keep_empty {p s : String}
    (h : p ∈ split_keep_sep "" s) : p.length ≤ CHUNK_SIZE := by
  have he : split_keep_sep "" s = s.data.map fun c => String.singleton c := rfl
  rw [he, List.mem_map] at h
  obtain ⟨c, _, rfl⟩ := h
  rw [length_string_singleton]
  decide

theorem chunk_bound_aux : ∀ (l : List String) (s c : String),
    c ∈ split_recursive (l ++ [""]) s → c.length ≤ CHUNK_SIZE := by
  intro l
  induction l with
  | nil =>
    intro s c hc
    simp only [List.nil_append, split_recursive, List.mem_flatMap] at hc
    obtain ⟨p, hp, hcp⟩ := hc
    have hple := length_le_of_mem_split_keep_empty hp
    rw [if_pos hple] at hcp
    simp only [List.mem_singleton] at hcp
    exact hcp ▸ hple
  | cons sep rest ih =>
    intro s c hc
    simp only [List.cons_append, split_recursive, List.mem_flatMap] at hc
    obtain ⟨p, hp, hcp⟩ := hc
    by_cases hple : p.length ≤ CHUNK_SIZE
    · rw [if_pos hple] at hcp
      simp only [List.mem_singleton] at hcp
      exact hcp ▸ hple
    · rw [if_neg hple] at hcp
      exact ih p c hcp

/-- Every chunk the modelled chunker produces is within `CHUNK_SIZE`. -/
theorem chunk_text_length_le {s c : String} (h : c ∈ chunk_text s) :
    c.length ≤ CHUNK_SIZE := by
  unfold chunk_text at h
  split at h
  · simp only [List.mem_singleton] at h
    subst h
    assumption
  · have hsep : separators = ["\n\n", "\n", ". ", ", ", " "] ++ [""] := rfl
    rw [hsep] at h
    exact chunk_bound_aux _ s c h

theorem data_infix_join_sep {x : String} (sep : String) :
    ∀ {l : List String}, x ∈ l → x.data <:+: (join_sep sep l).data := by
  intro l
  induction l with
  | nil => intro h; exact absurd h (List.not_mem_nil x)
  | cons y ys ih =>
    intro hx
    cases ys with
    | nil =>
      simp only [List.mem_singleton] at hx
      subst hx
      exact List.infix_refl _
    | cons z zs =>
      rcases List.mem_cons.mp hx with h1 | h2
      · subst h1
        show x.data <:+: (x ++ sep ++ join_sep sep (z :: zs)).data
        rw [String.data_append, String.data_append, List.append_assoc]
        exact (List.prefix_append _ _).isInfix
      · have hinf := ih h2
        show x.data <:+: (y ++ sep ++ join_sep sep (z :: zs)).data
        rw [String.data_append]
        exact hinf.trans (List.suffix_append _ _).isInfix

/-- Each retrieved chunk's text is an infix of the assembled
`job_context` block. -/
theorem page_content_infix_format_job_context {d : Document}
    {docs : List Document} (h : d ∈ docs) :
    d.page_content.data <:+: (format_job_context docs).data := by
  have hmem := List.mem_map_of_mem
    (fun doc : Document =>
      "**Source:** " ++ doc.metadata.source_name ++ "\n\n" ++ doc.page_content) h
  have hj := data_infix_join_sep "\n\n---\n\n" hmem
  refine List.IsInfix.trans ?_ hj
  rw [String.data_append]
  exact (List.suffix_append _ _).isInfix

/-! ## Claim theorems -/

/-- C1: for every store state (in particular any produced by ingestion),
every role string, every `k` and every similarity scoring,
`get_relevant_jobs` — which searches with the metadata filter
`doc_type = DOC_TYPE_JOB` — returns only chunks whose `doc_type` is the
job label; a chunk tagged as a CV is never among the results even when
CV chunks sit in the same collection. -/
theorem get_relevant_jobs_only_job_chunks
    (score : String → Document → Nat) (store : List Document)
    (role : String) (k : Option Nat) (d : Document)
    (h : d ∈ get_relevant_jobs score store role k) :
    d.metadata.doc_type = DOC_TYPE_JOB ∧ d.metadata.doc_type ≠ DOC_TYPE_CV := by
  have hjob := doc_type_of_mem_similarity_search h
  refine ⟨hjob, ?_⟩
  rw [hjob]
  decide

/-- C1 witness: on a store holding one job chunk and one CV chunk, the job
chunk is retrieved and carries the job label, not the CV label. -/
theorem get_relevant_jobs_only_job_chunks_witness :
    sample_job_doc.metadata.doc_type = DOC_TYPE_JOB
    ∧ sample_job_doc.metadata.doc_type ≠ DOC_TYPE_CV :=
  get_relevant_jobs_only_job_chunks (fun _ _ => 0)
    [sample_job_doc, sample_cv_doc] "Backend Developer" none sample_job_doc
    (by decide)

/-- C2: whenever retrieval for the role produces no job chunks,
`analyze_gap` returns the fixed no-data message whatever the
chat-completion chain would do — the chain is never consulted. -/
theorem analyze_gap_empty_retrieval_fixed_message
    (retrieve : String → Except String (List Document))
    (chain_invoke : PromptInput → Except String String)
    (cv_text role : String) (h : retrieve role = .ok []) :
    analyze_gap retrieve chain_invoke cv_text role = .ok no_jobs_message := by
  unfold analyze_gap
  rw [h]
  rfl

/-- C2 witness: with empty retrieval and a chain that would fail,
`analyze_gap` still returns the fixed message. -/
theorem analyze_gap_empty_retrieval_fixed_message_witness :
    analyze_gap (fun _ => .ok []) (fun _ => .error "boom")
      "SKILLS: Python" "Junior ML Engineer" = .ok no_jobs_message :=
  analyze_gap_empty_retrieval_fixed_message (fun _ => .ok [])
    (fun _ => .error "boom") "SKILLS: Python" "Junior ML Engineer" rfl

/-- C3 counterexample: a failure of the retrieval step (the
`self.get_relevant_jobs(role)` call on line 203, which uses the embedding
service and sits OUTSIDE the `try` block) propagates out of `analyze_gap`
as an exception instead of being converted to a user-facing string. -/
theorem analyze_gap_retrieval_failure_propagates :
    analyze_gap (fun _ => .error "embedding service unavailable")
      (fun _ => .ok "report") "SKILLS: Python" "Backend Developer"
      = .error "embedding service unavailable" := rfl

/-- C3 amended: failures of the chat-completion chain invocation are
caught and converted to the user-facing error string, but failures of the
retrieval step propagate to the caller as exceptions. -/
theorem analyze_gap_chain_failure_caught
    (cv_text role e : String) (docs : List Document)
    (chain_invoke : PromptInput → Except String String)
    (hne : docs ≠ []) :
    analyze_gap (fun _ => .ok docs) (fun _ => .error e) cv_text role
      = .ok (api_error_message e)
    ∧ analyze_gap (fun _ => .error e) chain_invoke cv_text role
      = .error e := by
  constructor
  · cases docs with
    | nil => exact absurd rfl hne
    | cons d ds => rfl
  · rfl

/-- C3 amended witness: a concrete chain failure yields the user-facing
error string while a concrete retrieval failure yields an exception. -/
theorem analyze_gap_chain_failure_caught_witness :
    analyze_gap (fun _ => .ok [sample_job_doc])
      (fun _ => .error "rate limit") "SKILLS: Python" "Backend Developer"
      = .ok (api_error_message "rate limit")
    ∧ analyze_gap (fun _ => .error "rate limit")
      (fun _ => .ok "report") "SKILLS: Python" "Backend Developer"
      = .error "rate limit" :=
  analyze_gap_chain_failure_caught "SKILLS: Python" "Backend Developer"
    "rate limit" [sample_job_doc] (fun _ => .ok "report") (by decide)

/-- C5: with a valid API key but no persisted store directory, analyzer
construction fails with `FileNotFoundError` whose message carries the
rebuild instruction `Please run: python ingest.py`. -/
theorem analyzer_init_missing_store_not_found
    (groq_api_key : Option String) (h : bad_key groq_api_key = false) :
    analyzer_init groq_api_key false
      = .error (.fileNotFoundError vector_store_error_message)
    ∧ "Please run: python ingest.py".data <:+: vector_store_error_message.data := by
  constructor
  · unfold analyzer_init
    rw [h]
    rfl
  · decide

/-- C5 witness: a concrete valid key with the store directory absent. -/
theorem analyzer_init_missing_store_not_found_witness :
    analyzer_init (some "gsk_live_key") false
      = .error (.fileNotFoundError vector_store_error_message)
    ∧ "Please run: python ingest.py".data <:+: vector_store_error_message.data :=
  analyzer_init_missing_store_not_found (some "gsk_live_key") (by decide)

/-- C6 counterexample: the source's separator list is not the one the
claim states — it also contains the comma separator `", "`, which is
neither a paragraph boundary, a newline, sentence-ending punctuation,
whitespace, nor the character-boundary separator. -/
theorem separators_not_spec_claimed_list :
    separators ≠ spec_claimed_separators
    ∧ ", " ∈ separators
    ∧ ", " ∉ spec_claimed_separators := by decide

/-- C6 amended: the chunker splits using exactly the priority order
paragraph boundaries, newlines, sentence-ending punctuation, comma
boundaries (`", "`), whitespace, then arbitrary character boundaries, and
every chunk it produces is at most `CHUNK_SIZE` (500) characters long. -/
theorem separators_priority_and_chunk_bound :
    separators = ["\n\n", "\n", ". ", ", ", " ", ""]
    ∧ ∀ s : String, ∀ c ∈ chunk_text s, c.length ≤ CHUNK_SIZE :=
  ⟨rfl, fun _ _ hc => chunk_text_length_le hc⟩

/-- C6 amended witness: a concrete text's chunk respects the bound. -/
theorem separators_priority_and_chunk_bound_witness :
    "hello world" ∈ chunk_text "hello world"
    ∧ ("hello world" : String).length ≤ CHUNK_SIZE :=
  ⟨by decide,
   separators_priority_and_chunk_bound.2 "hello world" "hello world" (by decide)⟩

/-- C7: on a non-empty retrieval result, `analyze_gap` hands the chain the
prompt input whose `job_context` is `format_job_context` of the retrieved
chunks, and that context block contains every retrieved chunk's text
literally (as a contiguous substring), each prefixed with its source name. -/
theorem analyze_gap_context_contains_chunk_text
    (docs : List Document) (chain_invoke : PromptInput → Except String String)
    (cv_text role : String) (hne : docs ≠ []) :
    analyze_gap (fun _ => .ok docs) chain_invoke cv_text role
      = (match chain_invoke
            { role := role, job_context := format_job_context docs,
              cv_text := cv_text } with
         | .ok report => .ok report
         | .error e => .ok (api_error_message e))
    ∧ ∀ d ∈ docs, d.page_content.data <:+: (format_job_context docs).data := by
  constructor
  · cases docs with
    | nil => exact absurd rfl hne
    | cons d ds => rfl
  · exact fun d hd => page_content_infix_format_job_context hd

/-- C7 witness: with the spec's single job chunk, the report comes back
from the chain and the chunk's text sits inside the context block. -/
theorem analyze_gap_context_contains_chunk_text_witness :
    analyze_gap (fun _ => .ok [sample_job_doc]) (fun _ => .ok "REPORT")
      "SKILLS: Python" "Backend Developer" = .ok "REPORT"
    ∧ sample_job_doc.page_content.data
        <:+: (format_job_context [sample_job_doc]).data :=
  ⟨(analyze_gap_context_contains_chunk_text [sample_job_doc]
      (fun _ => .ok "REPORT") "SKILLS: Python" "Backend Developer"
      (by decide)).1,
   (analyze_gap_context_contains_chunk_text [sample_job_doc]
      (fun _ => .ok "REPORT") "SKILLS: Python" "Backend Developer"
      (by decide)).2 sample_job_doc (by decide)⟩

/-- C8: a document whose content is shorter than `CHUNK_SIZE` chunks to
exactly one chunk equal to the document itself (content and metadata
unchanged). -/
theorem chunk_short_document_identity
    (doc : Document) (h : doc.page_content.length < CHUNK_SIZE) :
    chunk_documents [doc] = [doc] := by
  cases doc with
  | mk content metadata =>
    simp only [chunk_documents, chunk_text, List.flatMap_cons,
      List.flatMap_nil, List.append_nil]
    rw [if_pos (Nat.le_of_lt h)]
    rfl

/-- C8 witness: the spec's short job document is returned unchanged. -/
theorem chunk_short_document_identity_witness :
    chunk_documents [sample_job_doc] = [sample_job_doc] :=
  chunk_short_document_identity sample_job_doc (by decide)

/-- C9: analyzer construction with an unset, empty, or placeholder
`GROQ_API_KEY` fails with `ValueError`, and the key check precedes the
vector-store check — the result is the `ValueError` whatever the persist
directory's state. -/
theorem analyzer_init_bad_key_value_error
    (groq_api_key : Option String) (chroma_dir_exists : Bool)
    (h : groq_api_key = none ∨ groq_api_key = some ""
         ∨ groq_api_key = some "your_api_key_here") :
    analyzer_init groq_api_key chroma_dir_exists
      = .error (.valueError groq_key_error_message) := by
  rcases h with h | h | h <;> subst h <;> rfl

/-- C9 witness: the placeholder key with the store directory also absent
still reports the missing key. -/
theorem analyzer_init_bad_key_value_error_witness :
    analyzer_init (some "your_api_key_here") false
      = .error (.valueError groq_key_error_message) :=
  analyzer_init_bad_key_value_error (some "your_api_key_here") false
    (Or.inr (Or.inr rfl))

/-- C10: `run_ingestion` returns `none` — catching the loader's
`FileNotFoundError` rather than propagating it, and writing nothing —
whenever the job directory is missing, the CV directory is missing (even
with job files present), or both directories exist but hold no files. -/
theorem run_ingestion_loader_failure_returns_none
    (jobs_dir cvs_dir : Directory)
    (h : jobs_dir.dir_exists = false ∨ cvs_dir.dir_exists = false
         ∨ (jobs_dir.files = [] ∧ cvs_dir.files = [])) :
    run_ingestion jobs_dir cvs_dir = none := by
  rcases h with h | h | ⟨h1, h2⟩
  · simp [run_ingestion, load_documents, h]
  · cases hj : jobs_dir.dir_exists <;>
      simp [run_ingestion, load_documents, h, hj]
  · cases hj : jobs_dir.dir_exists <;> cases hc : cvs_dir.dir_exists <;>
      simp [run_ingestion, load_documents, hj, hc, h1, h2]

/-- C10 witness: a missing CV directory aborts ingestion even though the
job directory loaded a file. -/
theorem run_ingestion_loader_failure_returns_none_witness :
    run_ingestion
      { dir_exists := true, files := [("job1.txt", "JOB TITLE: Backend Developer")] }
      { dir_exists := false, files := [] } = none :=
  run_ingestion_loader_failure_returns_none
    { dir_exists := true, files := [("job1.txt", "JOB TITLE: Backend Developer")] }
    { dir_exists := false, files := [] } (Or.inr (Or.inl rfl))

end SkillGapMasr
